import Mathlib

/- Shallow embedding of the eth-scrapper ExternalScrapper pipeline
   (src: externalScrapper.js).  Pure data transformations are translated
   directly from the source; the browser fetch layer (loadURL /
   executeJavaScript) is modelled as an environment parameter giving the
   outcome of each external interaction. -/

set_option maxRecDepth 100000

namespace EthScrapper

/-- String.includes of JS at the character-list level: the needle occurs
    contiguously somewhere in the haystack. -/
def infixIn (needle : List Char) : List Char → Bool
  | [] => needle.isEmpty
  | c :: rest => needle.isPrefixOf (c :: rest) || infixIn needle rest

/-- Constructor options of ExternalScrapper (source lines 29-38). -/
structure Options where
  windowCooldown : Nat := 300
  autoRetryFailed : Bool := true
  maxRetries : Nat := 2
  pageTimeout : Nat := 8000
  batchDelay : Nat := 100

def defaultOptions : Options := {}

/-- Result shape of scrapePage: htmlContent is none on any caught failure
    (the source returns { page, htmlContent: null, uniqueId: null }). -/
structure PageResult where
  page : Nat
  htmlContent : Option String
deriving DecidableEq, Repr

/-- contentLower = htmlContent.toLowerCase() restricted to ASCII case
    mapping, which is what the block-signature list exercises. -/
def lowerStr (s : String) : String := String.mk (s.data.map Char.toLower)

/-- contentLower.includes(pattern.toLowerCase()). -/
def hasPattern (html pat : String) : Bool :=
  infixIn (lowerStr pat).data (lowerStr html).data

/-- The fixed block-signature list (source lines 183-193). -/
def failurePatterns : List String :=
  ["Access Denied", "captcha", "CAPTCHA", "blocked", "rate limit",
   "temporarily unavailable", "service unavailable", "cloudflare", "please try again"]

/-- failurePatterns.find(pattern => contentLower.includes(...)). -/
def detectedFailure (html : String) : Option String :=
  failurePatterns.find? (fun pat => hasPattern html pat)

/-- scrapePage validation core (source lines 176-221).  The fetched
    argument is the rendered markup the browser layer produced, or none
    when navigation, the load timeout or script execution failed; every
    throw inside the source function is caught and becomes a null
    htmlContent.  The Bool records whether clearCloudflareStatus ran. -/
def scrapePage (fetched : Option String) (page : Nat) : PageResult × Bool :=
  match fetched with
  | none => (⟨page, none⟩, false)
  | some html =>
    if html.length < 500 then (⟨page, none⟩, false)
    else
      match detectedFailure html with
      | some pat => (⟨page, none⟩, pat == "cloudflare")
      | none => (⟨page, some html⟩, false)

/-- scrapePageSafe attempt loop (source lines 410-444).  rem is the
    number of attempts still allowed, attempt the 1-based index of the
    next one; the second component counts the scrapePage calls actually
    performed (instrumentation used to state the retry-count claims). -/
def safeLoopF (fetch : Nat → Option String) (page : Nat) : Nat → Nat → PageResult × Nat
  | 0, attempt => (⟨page, none⟩, attempt - 1)
  | rem + 1, attempt =>
    let r := (scrapePage (fetch attempt) page).1
    match r.htmlContent with
    | some html =>
      if 500 < html.length then (r, attempt)
      else safeLoopF fetch page rem (attempt + 1)
    | none => safeLoopF fetch page rem (attempt + 1)

/-- scrapePageSafe: up to maxRetries attempts, validated by
    result.htmlContent && result.htmlContent.length > 500. -/
def scrapePageSafe (fetch : Nat → Option String) (page maxRetries : Nat) : PageResult × Nat :=
  safeLoopF fetch page maxRetries 1

/-- Whether one scrapePage outcome passes the scrapePageSafe validation. -/
def attemptValid (fetched : Option String) (page : Nat) : Bool :=
  match (scrapePage fetched page).1.htmlContent with
  | some html => decide (500 < html.length)
  | none => false

/-- Content that fails the insufficient-content check of scrapePage:
    absent, or shorter than 500 characters. -/
def contentShort : Option String → Bool
  | none => true
  | some c => decide (c.length < 500)

/-- A hexadecimal digit as in the character class [a-fA-F0-9]. -/
def isHexDigitCh (c : Char) : Bool :=
  c.isDigit || (decide ('a' ≤ c) && decide (c ≤ 'f')) || (decide ('A' ≤ c) && decide (c ≤ 'F'))

def hrefMark : List Char := ['h', 'r', 'e', 'f', '=', '"']

/-- Split at the first double quote: (characters before it, after it). -/
def splitAtQuote : List Char → Option (List Char × List Char)
  | [] => none
  | c :: cs =>
    if c = '"' then some ([], cs)
    else
      match splitAtQuote cs with
      | some (b, a) => some (c :: b, a)
      | none => none

/-- One candidate match of /href="[^"]*\/tx\/(0x[a-fA-F0-9]{64})"/:
    before is the quote-free span following an href=" occurrence.  The
    span matched by the regex body is quote-free, so the closing quote of
    any match is necessarily the first quote after the opening one, and
    the pattern matches iff the span ends with /tx/ followed by 0x and 64
    hex digits; the capture is that 66-character suffix. -/
def hashFromBefore (before : List Char) : Option String :=
  let n := before.length
  if 70 ≤ n then
    let t := before.drop (n - 70)
    if t.take 4 = ['/', 't', 'x', '/'] ∧ (t.drop 4).take 2 = ['0', 'x']
        ∧ (t.drop 6).all isHexDigitCh then
      some (String.mk (t.drop 4))
    else none
  else none

/-- The regex exec loop of parseHTMLForHashes (source lines 224-251).
    fuel bounds the scan (any value above the content length is enough:
    the source loop always advances).  count is matchCount; the loop
    breaks once it exceeds 10000, after recording the match that crossed
    the cap, exactly as the source does. -/
def scanHashesF : Nat → Nat → List Char → List String
  | 0, _, _ => []
  | _, _, [] => []
  | f + 1, count, c :: rest =>
    if hrefMark.isPrefixOf (c :: rest) then
      match splitAtQuote ((c :: rest).drop 6) with
      | some (before, after) =>
        match hashFromBefore before with
        | some h =>
          if 10000 < count + 1 then [h]
          else h :: scanHashesF f (count + 1) after
        | none => scanHashesF f count rest
      | none => scanHashesF f count rest
    else scanHashesF f count rest

/-- JS Set insertion: keeps the first occurrence, preserves order. -/
def insertStr (l : List String) (x : String) : List String :=
  if x ∈ l then l else l ++ [x]

def insertNat (l : List Nat) (x : Nat) : List Nat :=
  if x ∈ l then l else l ++ [x]

/-- parseHTMLForHashes: every capture in scan order, deduplicated through
    a Set whose Array.from keeps first-occurrence order. -/
def parseHTMLForHashes (htmlContent : String) : List String :=
  (scanHashesF (htmlContent.data.length + 1) 0 htmlContent.data).foldl insertStr []

/-- Session-owned mutable state of one scrappe() call. -/
structure SessState where
  allHashes : List String := []
  failedPages : List Nat := []
  processedPages : List Nat := []
deriving DecidableEq, Repr

/-- Outcomes of the external browser layer for one session.  waveFetch
    (resp. retryFetch) gives for a page and a 1-based attempt index the
    markup that attempt obtained, or none when it failed; chainThrow
    models a runtime exception thrown inside a wave task's then-chain
    (the input of the final .catch); dur is a wave task's duration in
    milliseconds, raced against the 45 s batch timeout. -/
structure Env where
  navOk : Bool := true
  pageInfoMatch : Option Nat := none
  lastButtonMatch : Option Nat := none
  waveFetch : Nat → Nat → Option String := fun _ _ => none
  retryFetch : Nat → Nat → Option String := fun _ _ => none
  chainThrow : Nat → Bool := fun _ => false
  dur : Nat → Nat := fun _ => 0

/-- One wave-phase page task (source lines 287-325): the then-chain after
    the slot cooldown.  On success the hashes join the session set and the
    page is marked processed; on a null fetch result or a thrown chain the
    .catch / else branch records the page as failed and fulfils with a
    zero hash count. -/
def processPage (env : Env) (maxRetries p : Nat) (s : SessState) : SessState × (Nat × Nat) :=
  if env.chainThrow p then
    ({ s with failedPages := insertNat s.failedPages p }, (p, 0))
  else
    let r := (scrapePageSafe (env.waveFetch p) p maxRetries).1
    match r.htmlContent with
    | some html =>
      let hashes := parseHTMLForHashes html
      ({ s with
          allHashes := hashes.foldl insertStr s.allHashes,
          processedPages := insertNat s.processedPages p }, (p, hashes.length))
    | none =>
      ({ s with failedPages := insertNat s.failedPages p }, (p, 0))

/-- The wave loop bounds (source lines 331-338): while batchStart does
    not exceed actualTotalPages, launch pages batchStart..batchEnd with
    batchEnd = min(batchStart + maxConcurrent - 1, actualTotalPages).
    fuel bounds the iteration count; total + 1 suffices whenever the
    window count is at least one (with zero windows the source loop does
    not terminate at all). -/
def waveLoopF (m total : Nat) : Nat → Nat → List (List Nat)
  | 0, _ => []
  | f + 1, batchStart =>
    if batchStart ≤ total then
      let batchEnd := min (batchStart + m - 1) total
      List.range' batchStart (batchEnd + 1 - batchStart) :: waveLoopF m total f (batchEnd + 1)
    else []

def wavePages (m total : Nat) : List (List Nat) := waveLoopF m total (total + 1) 1

/-- Settlement state of a promise. -/
inductive Settled (α : Type) where
  | fulfilled (a : α)
  | rejected
deriving DecidableEq, Repr

def Settled.isRejected {α : Type} : Settled α → Bool
  | .rejected => true
  | .fulfilled _ => false

/-- Promise.race of a task against a timer.  The task promise of a wave
    page always fulfils (its chain ends in .catch), so the raced promise
    rejects exactly when the timer wins; the tie at exactly the timeout
    is resolved in the timer's favour here. -/
def raceTimeout {α : Type} (timeout d : Nat) (v : α) : Settled α :=
  if d < timeout then .fulfilled v else .rejected

/-- Settlement list of one batch under Promise.allSettled of the 45 s
    races (source lines 343-350), threading the session state. -/
def batchSettles (env : Env) (maxRetries : Nat) : SessState → List Nat → List (Settled (Nat × Nat))
  | _, [] => []
  | s, p :: ps =>
    let pr := processPage env maxRetries p s
    raceTimeout 45000 (env.dur p) pr.2 :: batchSettles env maxRetries pr.1 ps

/-- batchResults.filter(r => r.status === 'rejected').length. -/
def batchErrors (env : Env) (maxRetries : Nat) (s : SessState) (batch : List Nat) : Nat :=
  (batchSettles env maxRetries s batch).countP Settled.isRejected

/-- The adaptive delay value (source lines 358-366). -/
def interWaveDelay (batchErrs batchDelay : Nat) : Nat :=
  if 5 < batchErrs then 2000
  else if 2 < batchErrs then 800
  else batchDelay

/-- Milliseconds actually awaited between waves: the source sleeps only
    when the adaptive delay strictly exceeds the base batchDelay
    (source lines 368-370). -/
def interWaveSleep (batchErrs batchDelay : Nat) : Nat :=
  let d := interWaveDelay batchErrs batchDelay
  if batchDelay < d then d else 0

/-- The in-page detection script (source lines 472-500): the "Page X of
    Y" marker wins, else the last-page link, else 1.  The environment
    supplies the two regex-match results. -/
def detectScript (pageInfoMatch lastButtonMatch : Option Nat) : Nat :=
  match pageInfoMatch with
  | some n => n
  | none =>
    match lastButtonMatch with
    | some n => n
    | none => 1

/-- detectTotalPages (source lines 463-507): run the script when
    navigation succeeds (totalPages || 1 maps a zero result to 1); any
    error falls back to 1. -/
def detectTotalPages (env : Env) : Nat :=
  if env.navOk then
    let t := detectScript env.pageInfoMatch env.lastButtonMatch
    if t = 0 then 1 else t
  else 1

/-- Retry pass body (source lines 387-409): one scrapePageSafe call per
    registered page.  The source launches every page concurrently through
    failedArray.map; the recursion is its linearisation, sound because
    distinct pages touch distinct registry entries and set insertion
    commutes.  The log records the fetch attempts each page consumed. -/
def retryLoop (env : Env) (maxRetries : Nat) : SessState → List Nat → SessState × List (Nat × Nat)
  | s, [] => (s, [])
  | s, p :: ps =>
    let rn := scrapePageSafe (env.retryFetch p) p maxRetries
    let s2 :=
      match rn.1.htmlContent with
      | some html =>
        { s with
            allHashes := (parseHTMLForHashes html).foldl insertStr s.allHashes,
            failedPages := s.failedPages.erase p }
      | none => s
    let rest := retryLoop env maxRetries s2 ps
    (rest.1, (p, rn.2) :: rest.2)

def retryFailedPages (env : Env) (maxRetries : Nat) (s : SessState) : SessState × List (Nat × Nat) :=
  retryLoop env maxRetries s s.failedPages

/-- scrappe() (source lines 270-386): detection, clamp, wave loop,
    snapshot of the hash set through Array.from, then the optional retry
    pass.  Returns the array the caller receives together with the final
    session state (the source returns only the first component). -/
def scrappe (env : Env) (opts : Options) (maxWindows requested : Nat) :
    List String × SessState :=
  let detected := detectTotalPages env
  let actualTotalPages := min detected requested
  let sWave :=
    (wavePages maxWindows actualTotalPages).foldl
      (fun st batch => batch.foldl (fun st2 p => (processPage env opts.maxRetries p st2).1) st)
      ({} : SessState)
  let uniqueHashes := sWave.allHashes
  let sFinal :=
    if opts.autoRetryFailed && !sWave.failedPages.isEmpty then
      (retryFailedPages env opts.maxRetries sWave).1
    else sWave
  (uniqueHashes, sFinal)

/-- The pages a session launches, in launch order. -/
def scheduledPages (env : Env) (maxWindows requested : Nat) : List Nat :=
  (wavePages maxWindows (min (detectTotalPages env) requested)).flatten

/-- Static page-to-window assignment (page - 1) % maxWindows
    (source lines 99 and 288). -/
def slotOf (maxWindows p : Nat) : Nat := (p - 1) % maxWindows

/-- The per-window promise chains the wave phase builds: each processPage
    call appends its page to the chain of its window, in launch order
    (source lines 287-325, the activePromises map). -/
def buildChains (maxWindows : Nat) (pages : List Nat) : Nat → List Nat :=
  pages.foldl
    (fun m p => fun w => if w = slotOf maxWindows p then m w ++ [p] else m w)
    (fun _ => [])

/-- Execution intervals of one window chain: a task waits for the
    previous task on its window to settle, then for the cooldown, then
    runs for its duration; entries are (page, start, stop). -/
def chainSched (cooldown : Nat) (dur : Nat → Nat) : Nat → List Nat → List (Nat × Nat × Nat)
  | _, [] => []
  | t, p :: ps =>
    (p, t + cooldown, t + cooldown + dur p) :: chainSched cooldown dur (t + cooldown + dur p) ps

/-- Retry-pass intervals: failedArray.map launches every task at once, so
    every interval starts at the beginning of the pass. -/
def retrySched (dur : Nat → Nat) (failed : List Nat) : List (Nat × Nat × Nat) :=
  failed.map (fun p => (p, 0, dur p))

def inFlightAt (iv : Nat × Nat × Nat) (t : Nat) : Prop :=
  iv.2.1 ≤ t ∧ t < iv.2.2

/-- No two entries of the list are ever in flight at the same instant:
    each one ends no later than any later one starts. -/
def IntervalsDisjoint (l : List (Nat × Nat × Nat)) : Prop :=
  l.Pairwise (fun a b => a.2.2 ≤ b.2.1)

/-- Concrete transaction identifiers used by the end-to-end scenarios. -/
def hashAlpha : String := "0x" ++ String.mk (List.replicate 64 'a')

def hashBeta : String := "0x" ++ String.mk (List.replicate 64 'b')

/-- A transaction link as it occurs in the rendered filter table. -/
def txLink (h : String) : String :=
  "<a href=\"https://etherscan.io/tx/" ++ h ++ "\">t</a>"

def padX : String := String.mk (List.replicate 500 'x')

/-- A valid page: long enough, block-signature free, one tx link. -/
def goodHtml : String := padX ++ txLink hashAlpha

/-- Scenario A content: two link occurrences of hashAlpha around one of
    hashBeta. -/
def scenarioA : String := txLink hashAlpha ++ txLink hashBeta ++ txLink hashAlpha

/-- Content ≥ 500 characters holding both the captcha and the cloudflare
    signatures: the find over the pattern list stops at captcha. -/
def captchaCloudHtml : String := padX ++ "captcha cloudflare"

/-- Content ≥ 500 characters whose only block signature is cloudflare. -/
def cloudHtml : String := padX ++ "cloudflare"

/-- Exactly 500 characters of plain filler. -/
def pad500 : String := String.mk (List.replicate 500 'y')

/-- Session of scenario C with one page: every wave attempt fails, the
    retry-pass fetch returns goodHtml. -/
def envC1 : Env :=
  { pageInfoMatch := some 1
    retryFetch := fun _ _ => some goodHtml }

/-- Environment whose every fetch fails. -/
def envFail : Env := {}

/-- Environment whose wave chain throws on every page, with page 1 slow
    enough to lose the 45 s race. -/
def envThrow : Env :=
  { chainThrow := fun _ => true
    dur := fun p => if p = 1 then 50000 else 0 }

/-- Environment whose wave fetches always return undersized content. -/
def envTiny : Env := { waveFetch := fun _ _ => some "tiny" }

/-- Environment whose wave fetches always return exactly 500 characters. -/
def env500 : Env := { waveFetch := fun _ _ => some pad500 }

/- ================= helper lemmas ================= -/

theorem insertStr_nodup (l : List String) (x : String) (h : l.Nodup) :
    (insertStr l x).Nodup := by
  unfold insertStr
  split
  · exact h
  · next hx => simp [List.nodup_append, h, hx]

theorem foldl_insertStr_nodup (xs : List String) :
    ∀ acc : List String, acc.Nodup → (xs.foldl insertStr acc).Nodup := by
  induction xs with
  | nil => intro acc h; exact h
  | cons x xs ih => intro acc h; exact ih _ (insertStr_nodup _ _ h)

/-- If every attempt the loop may still make fails the validation, the
    retry loop ends with a null result after consuming the whole budget. -/
theorem safeLoopF_invalid (fetch : Nat → Option String) (page : Nat) :
    ∀ rem attempt : Nat,
      (∀ k, attempt ≤ k → k < attempt + rem → attemptValid (fetch k) page = false) →
      safeLoopF fetch page rem attempt = (⟨page, none⟩, attempt + rem - 1) := by
  intro rem
  induction rem with
  | zero => intro attempt _; simp [safeLoopF]
  | succ r ih =>
    intro attempt h
    have ha : attemptValid (fetch attempt) page = false :=
      h attempt (Nat.le_refl _) (by omega)
    have hrec : safeLoopF fetch page r (attempt + 1) = (⟨page, none⟩, attempt + 1 + r - 1) :=
      ih (attempt + 1) (fun k hk1 hk2 => h k (by omega) (by omega))
    unfold attemptValid at ha
    cases hc : (scrapePage (fetch attempt) page).1.htmlContent with
    | none =>
      simp only [safeLoopF, hc, hrec]
      congr 1
      omega
    | some html =>
      rw [hc] at ha
      simp only [decide_eq_false_iff_not] at ha
      simp only [safeLoopF, hc, if_neg ha, hrec]
      congr 1
      omega

theorem attemptValid_short (c : Option String) (p : Nat) (h : contentShort c = true) :
    attemptValid c p = false := by
  cases c with
  | none => rfl
  | some s =>
    unfold contentShort at h
    simp only [decide_eq_true_eq] at h
    unfold attemptValid scrapePage
    simp [h]

theorem attemptValid_le500 (c : String) (p : Nat) (h : c.length ≤ 500) :
    attemptValid (some c) p = false := by
  unfold attemptValid scrapePage
  by_cases hl : c.length < 500
  · simp [hl]
  · cases hdf : detectedFailure c with
    | some pat => simp [hl, hdf]
    | none =>
      simp [hl, hdf]
      omega

/-- A wave task whose chain throws, or whose every allowed attempt fails
    validation, records the page as failed and fulfils with zero hashes. -/
theorem processPage_failed (env : Env) (mx p : Nat) (s : SessState)
    (h : env.chainThrow p = true
      ∨ ∀ k, 1 ≤ k → k ≤ mx → attemptValid (env.waveFetch p k) p = false) :
    processPage env mx p s = ({ s with failedPages := insertNat s.failedPages p }, (p, 0)) := by
  by_cases hct : env.chainThrow p
  · simp [processPage, hct]
  · have h2 : ∀ k, 1 ≤ k → k ≤ mx → attemptValid (env.waveFetch p k) p = false := by
      rcases h with h | h
      · exact absurd h hct
      · exact h
    have hsl : safeLoopF (env.waveFetch p) p mx 1 = (⟨p, none⟩, 1 + mx - 1) :=
      safeLoopF_invalid (env.waveFetch p) p mx 1 (fun k hk1 hk2 => h2 k hk1 (by omega))
    simp [processPage, hct, scrapePageSafe, hsl]

/-- The wave loop enumerates exactly the contiguous page range. -/
theorem waveLoopF_flatten (m total : Nat) (hm : 1 ≤ m) :
    ∀ fuel start : Nat, total + 1 ≤ fuel + start →
      (waveLoopF m total fuel start).flatten = List.range' start (total + 1 - start) := by
  intro fuel
  induction fuel with
  | zero =>
    intro start h
    have h0 : total + 1 - start = 0 := by omega
    simp [waveLoopF, h0]
  | succ f ih =>
    intro start h
    by_cases hs : start ≤ total
    · have hbe1 : start ≤ min (start + m - 1) total := by omega
      have hbe2 : min (start + m - 1) total ≤ total := by omega
      have hrec := ih (min (start + m - 1) total + 1) (by omega)
      simp only [waveLoopF, if_pos hs, List.flatten_cons, hrec]
      have happ := List.range'_append start (min (start + m - 1) total + 1 - start)
        (total + 1 - (min (start + m - 1) total + 1)) 1
      simp only [Nat.one_mul] at happ
      have harg : start + (min (start + m - 1) total + 1 - start)
          = min (start + m - 1) total + 1 := by omega
      rw [harg] at happ
      rw [happ]
      congr 1
      omega
    · have h0 : total + 1 - start = 0 := by omega
      simp [waveLoopF, hs, h0]

theorem wavePages_flatten (m total : Nat) (hm : 1 ≤ m) :
    (wavePages m total).flatten = List.range' 1 total := by
  have := waveLoopF_flatten m total hm (total + 1) 1 (by omega)
  simpa using this

/-- Every interval of a chain starts no earlier than the chain start. -/
theorem chainSched_start_le (cooldown : Nat) (dur : Nat → Nat) :
    ∀ (l : List Nat) (t : Nat), ∀ iv ∈ chainSched cooldown dur t l, t ≤ iv.2.1 := by
  intro l
  induction l with
  | nil => intro t iv h; simp [chainSched] at h
  | cons p ps ih =>
    intro t iv h
    simp only [chainSched, List.mem_cons] at h
    rcases h with rfl | h
    · simp
    · have := ih _ iv h
      omega

/-- Tasks chained on one window occupy pairwise disjoint intervals. -/
theorem chainSched_disjoint (cooldown : Nat) (dur : Nat → Nat) :
    ∀ (l : List Nat) (t : Nat), IntervalsDisjoint (chainSched cooldown dur t l) := by
  intro l
  induction l with
  | nil => intro t; exact List.Pairwise.nil
  | cons p ps ih =>
    intro t
    unfold IntervalsDisjoint chainSched
    refine List.Pairwise.cons ?_ (ih _)
    intro iv hiv
    have := chainSched_start_le cooldown dur ps _ iv hiv
    simp
    omega

/-- The rejected settlements of a batch are exactly the tasks that lost
    the 45 s race, whatever their fetches did. -/
theorem batchErrors_eq (env : Env) (mx : Nat) :
    ∀ (batch : List Nat) (s : SessState),
      batchErrors env mx s batch
        = (batch.filter (fun q => decide (45000 ≤ env.dur q))).length := by
  intro batch
  induction batch with
  | nil => intro s; rfl
  | cons p ps ih =>
    intro s
    unfold batchErrors batchSettles
    by_cases hd : env.dur p < 45000
    · have : ¬ (45000 ≤ env.dur p) := by omega
      simp [raceTimeout, hd, Settled.isRejected, List.countP_cons, List.filter_cons, this]
      exact ih _
    · have : 45000 ≤ env.dur p := by omega
      simp [raceTimeout, hd, Settled.isRejected, List.countP_cons, List.filter_cons, this]
      have := ih (processPage env mx p s).1
      unfold batchErrors at this
      omega

/-- The retry pass logs exactly one scrapePageSafe call per registered
    page, in registry order. -/
theorem retryLoop_log_fst (env : Env) (mx : Nat) :
    ∀ (l : List Nat) (s : SessState), ((retryLoop env mx s l).2).map Prod.fst = l := by
  intro l
  induction l with
  | nil => intro s; rfl
  | cons p ps ih =>
    intro s
    unfold retryLoop
    simp only [List.map_cons]
    cases hc : (scrapePageSafe (env.retryFetch p) p mx).1.htmlContent <;>
      simp [hc, ih]

/-- With the session budget of 2, one scrapePageSafe call performs one or
    two fetch attempts. -/
theorem scrapePageSafe_two_attempts (fetch : Nat → Option String) (page : Nat) :
    1 ≤ (scrapePageSafe fetch page 2).2 ∧ (scrapePageSafe fetch page 2).2 ≤ 2 := by
  unfold scrapePageSafe
  cases h1 : (scrapePage (fetch 1) page).1.htmlContent with
  | some html1 =>
    by_cases hl1 : 500 < html1.length
    · simp [safeLoopF, h1, hl1]
    · cases h2 : (scrapePage (fetch 2) page).1.htmlContent with
      | some html2 =>
        by_cases hl2 : 500 < html2.length <;> simp [safeLoopF, h1, hl1, h2, hl2]
      | none => simp [safeLoopF, h1, hl1, h2]
  | none =>
    cases h2 : (scrapePage (fetch 2) page).1.htmlContent with
    | some html2 =>
      by_cases hl2 : 500 < html2.length <;> simp [safeLoopF, h1, h2, hl2]
    | none => simp [safeLoopF, h1, h2]

/-- Every fetch-attempt count the retry pass logs lies in [1, 2]. -/
theorem retryLoop_attempts (env : Env) :
    ∀ (l : List Nat) (s : SessState) (e : Nat × Nat),
      e ∈ (retryLoop env 2 s l).2 → 1 ≤ e.2 ∧ e.2 ≤ 2 := by
  intro l
  induction l with
  | nil => intro s e h; simp [retryLoop] at h
  | cons p ps ih =>
    intro s e h
    unfold retryLoop at h
    simp only [List.mem_cons] at h
    rcases h with rfl | h
    · exact scrapePageSafe_two_attempts (env.retryFetch p) p
    · exact ih _ e h

/-- Every retry-pass interval starts at the beginning of the pass. -/
theorem retrySched_start_zero (dur : Nat → Nat) (failed : List Nat) :
    ∀ iv ∈ retrySched dur failed, iv.2.1 = 0 := by
  intro iv hiv
  simp only [retrySched, List.mem_map] at hiv
  obtain ⟨p, _, rfl⟩ := hiv
  rfl

theorem hasPattern_CAPTCHA (html : String) :
    hasPattern html "CAPTCHA" = hasPattern html "captcha" := by
  have h : (lowerStr "CAPTCHA").data = (lowerStr "captcha").data := by decide
  unfold hasPattern
  rw [h]

/-- The find over the block-signature list yields the cloudflare entry
    exactly when the cloudflare signature occurs and none of the entries
    before it in the list does. -/
theorem detectedFailure_cloudflare (html : String) :
    detectedFailure html = some "cloudflare" ↔
      (hasPattern html "cloudflare" = true
        ∧ hasPattern html "Access Denied" = false
        ∧ hasPattern html "captcha" = false
        ∧ hasPattern html "blocked" = false
        ∧ hasPattern html "rate limit" = false
        ∧ hasPattern html "temporarily unavailable" = false
        ∧ hasPattern html "service unavailable" = false) := by
  have hcap := hasPattern_CAPTCHA html
  cases h1 : hasPattern html "Access Denied" <;>
    cases h2 : hasPattern html "captcha" <;>
      cases h3 : hasPattern html "blocked" <;>
        cases h4 : hasPattern html "rate limit" <;>
          cases h5 : hasPattern html "temporarily unavailable" <;>
            cases h6 : hasPattern html "service unavailable" <;>
              cases h7 : hasPattern html "cloudflare" <;>
                cases h8 : hasPattern html "please try again" <;>
                  simp [detectedFailure, failurePatterns, List.find?,
                    h1, h2, h3, h4, h5, h6, h7, h8, hcap]

/- ================= claim theorems ================= -/

/-- C1 (code bug): in a session where page 1 fails every wave attempt and
    the Retry Pass then succeeds and extracts hashAlpha, the retry merge
    reaches the session hash set and empties the failure registry, yet the
    list scrappe() returns stays empty, because the source snapshots
    Array.from(allHashesSet) before running the retry pass. -/
theorem claim1_retry_hashes_missing_from_return :
    (scrappe envC1 defaultOptions 1 1).1 = []
    ∧ (scrappe envC1 defaultOptions 1 1).2.allHashes = [hashAlpha]
    ∧ (scrappe envC1 defaultOptions 1 1).2.failedPages = [] :=
  ⟨by decide, by decide, by decide⟩

/-- C2 counterexample: a registered page whose retry-pass fetches keep
    failing is fetch-attempted twice during the Retry Pass (the full
    inline budget), not exactly once as the claim states. -/
theorem claim2_retry_not_single_attempt_cex :
    (retryFailedPages envFail 2 { failedPages := [3] }).2 = [(3, 2)]
    ∧ (2 : Nat) ≠ 1 :=
  ⟨by decide, by decide⟩

/-- C2 (amended): the Retry Pass makes exactly one scrapePageSafe call
    per page still registered, launched concurrently at the start of the
    pass with no per-slot chaining or cooldown, and that call performs
    between 1 and maxRetries (= 2) fetch attempts. -/
theorem claim2_retry_pass_amended (env : Env) (s : SessState) (dur : Nat → Nat) :
    ((retryFailedPages env 2 s).2.map Prod.fst = s.failedPages)
    ∧ (∀ e ∈ (retryFailedPages env 2 s).2, 1 ≤ e.2 ∧ e.2 ≤ 2)
    ∧ (∀ iv ∈ retrySched dur s.failedPages, iv.2.1 = 0) :=
  ⟨retryLoop_log_fst env 2 s.failedPages s,
   fun e he => retryLoop_attempts env s.failedPages s e he,
   retrySched_start_zero dur s.failedPages⟩

theorem claim2_retry_pass_amended_wit :
    ((retryFailedPages envFail 2 { failedPages := [3] }).2.map Prod.fst = [3])
    ∧ (1 ≤ ((3, 2) : Nat × Nat).2 ∧ ((3, 2) : Nat × Nat).2 ≤ 2)
    ∧ ((3, 0, 5) : Nat × Nat × Nat).2.1 = 0 :=
  ⟨(claim2_retry_pass_amended envFail { failedPages := [3] } (fun _ => 5)).1,
   (claim2_retry_pass_amended envFail { failedPages := [3] } (fun _ => 5)).2.1 (3, 2) (by decide),
   (claim2_retry_pass_amended envFail { failedPages := [3] } (fun _ => 5)).2.2 (3, 0, 5) (by decide)⟩

/-- C3 counterexample: with two windows, failed pages 1 and 3 both map to
    slot 0, and in the Retry Pass both are in flight at instant 0, so two
    pages are fetched concurrently on one slot. -/
theorem claim3_slot_exclusive_cex :
    slotOf 2 1 = slotOf 2 3
    ∧ (1, 0, 1000) ∈ retrySched (fun _ => 1000) [1, 3]
    ∧ (3, 0, 1000) ∈ retrySched (fun _ => 1000) [1, 3]
    ∧ inFlightAt (1, 0, 1000) 0
    ∧ inFlightAt (3, 0, 1000) 0 := by
  refine ⟨rfl, ?_, ?_, ?_, ?_⟩ <;> simp [retrySched, inFlightAt]

/-- C3 (amended): during the wave phase at most one task is ever in
    flight on a window: for every session schedule, duration assignment,
    cooldown and start instant, the intervals of the tasks chained on any
    window are pairwise disjoint. -/
theorem claim3_wave_slot_exclusive (env : Env) (maxWindows requested cooldown t0 : Nat)
    (dur : Nat → Nat) (w : Nat) :
    IntervalsDisjoint
      (chainSched cooldown dur t0
        (buildChains maxWindows (scheduledPages env maxWindows requested) w)) :=
  chainSched_disjoint cooldown dur _ t0

/-- C4 counterexample: with 2 errors in the preceding wave the source
    inserts no delay at all (the sleep is skipped because the computed
    delay does not exceed the base), not the 100 ms the claim states. -/
theorem claim4_base_delay_cex :
    interWaveSleep 2 defaultOptions.batchDelay = 0
    ∧ interWaveSleep 2 defaultOptions.batchDelay ≠ 100 :=
  ⟨by decide, by decide⟩

/-- C4 (amended): strictly more than 5 errors inserts 2000 ms, 3 to 5
    errors inserts 800 ms, and 2 or fewer errors computes the base value
    of 100 ms but inserts no delay, the sleep being skipped as not
    exceeding the base. -/
theorem claim4_adaptive_delay_amended (e : Nat) :
    (5 < e → interWaveSleep e defaultOptions.batchDelay = 2000)
    ∧ (3 ≤ e ∧ e ≤ 5 → interWaveSleep e defaultOptions.batchDelay = 800)
    ∧ (e ≤ 2 → interWaveDelay e defaultOptions.batchDelay = 100
        ∧ interWaveSleep e defaultOptions.batchDelay = 0) := by
  refine ⟨fun h => ?_, fun h => ?_, fun h => ⟨?_, ?_⟩⟩ <;>
    · simp only [interWaveSleep, interWaveDelay, defaultOptions]
      split_ifs <;> omega

theorem claim4_adaptive_delay_amended_wit :
    interWaveSleep 6 defaultOptions.batchDelay = 2000
    ∧ interWaveSleep 5 defaultOptions.batchDelay = 800
    ∧ interWaveSleep 2 defaultOptions.batchDelay = 0 :=
  ⟨(claim4_adaptive_delay_amended 6).1 (by decide),
   (claim4_adaptive_delay_amended 5).2.1 (by decide),
   ((claim4_adaptive_delay_amended 2).2.2 (by decide)).2⟩

/-- C5: a wave task whose chain throws or whose every fetch attempt fails
    validation settles as a fulfilled value with zero hashes, and the
    per-wave error count that drives the adaptive delay equals the number
    of tasks whose duration reached the 45 s batch ceiling, independent of
    any fetch outcome. -/
theorem claim5_errors_count_only_timeouts (env : Env) (mx p : Nat)
    (s s0 : SessState) (batch : List Nat)
    (h : env.chainThrow p = true
      ∨ ∀ k, 1 ≤ k → k ≤ mx → attemptValid (env.waveFetch p k) p = false) :
    (processPage env mx p s).2 = (p, 0)
    ∧ batchErrors env mx s0 batch
        = (batch.filter (fun q => decide (45000 ≤ env.dur q))).length := by
  constructor
  · rw [processPage_failed env mx p s h]
  · exact batchErrors_eq env mx batch s0

theorem claim5_errors_count_only_timeouts_wit :
    (processPage envThrow 2 1 {}).2 = (1, 0)
    ∧ batchErrors envThrow 2 {} [1, 2]
        = ([1, 2].filter (fun q => decide (45000 ≤ envThrow.dur q))).length :=
  claim5_errors_count_only_timeouts envThrow 2 1 {} {} [1, 2] (Or.inl rfl)

/-- C6 counterexample: content long enough that contains both the captcha
    and the cloudflare signatures is recorded as Failed, but the bypass
    state is not cleared although the content contains 'cloudflare',
    because the find over the pattern list stops at 'captcha'. -/
theorem claim6_cloudflare_not_cleared_cex :
    hasPattern captchaCloudHtml "cloudflare" = true
    ∧ (scrapePage (some captchaCloudHtml) 1).1.htmlContent = none
    ∧ (scrapePage (some captchaCloudHtml) 1).2 = false :=
  ⟨by decide, by decide, by decide⟩

/-- C6 (amended): any blocked-signature content yields a Failed attempt
    with no identifiers, and the bypass state is cleared exactly when the
    content passes the length check and 'cloudflare' is the first
    signature of the list that matches. -/
theorem claim6_block_signature_amended (html : String) (p : Nat) :
    ((∃ pat ∈ failurePatterns, hasPattern html pat = true) →
        (scrapePage (some html) p).1.htmlContent = none)
    ∧ ((scrapePage (some html) p).2 = true ↔
        (500 ≤ html.length
          ∧ hasPattern html "cloudflare" = true
          ∧ hasPattern html "Access Denied" = false
          ∧ hasPattern html "captcha" = false
          ∧ hasPattern html "blocked" = false
          ∧ hasPattern html "rate limit" = false
          ∧ hasPattern html "temporarily unavailable" = false
          ∧ hasPattern html "service unavailable" = false)) := by
  constructor
  · rintro ⟨pat, hmem, hpat⟩
    unfold scrapePage
    by_cases hlen : html.length < 500
    · simp [hlen]
    · cases hdf : detectedFailure html with
      | some q => simp [hlen, hdf]
      | none =>
        exfalso
        have hnone := List.find?_eq_none.mp (by simpa [detectedFailure] using hdf) pat hmem
        exact hnone hpat
  · have hiff : (scrapePage (some html) p).2 = true ↔
        (500 ≤ html.length ∧ detectedFailure html = some "cloudflare") := by
      unfold scrapePage
      by_cases hlen : html.length < 500
      · simp [hlen]
      · have h500 : 500 ≤ html.length := Nat.le_of_not_lt hlen
        cases hdf : detectedFailure html with
        | none => simp [hlen, hdf]
        | some q => simp [hlen, hdf, h500]
    rw [hiff, detectedFailure_cloudflare]

theorem claim6_block_signature_amended_wit :
    (scrapePage (some cloudHtml) 1).1.htmlContent = none
    ∧ (scrapePage (some cloudHtml) 1).2 = true :=
  ⟨(claim6_block_signature_amended cloudHtml 1).1 ⟨"cloudflare", by decide, by decide⟩,
   (claim6_block_signature_amended cloudHtml 1).2.mpr (by decide)⟩

/-- C7: an attempt whose content is absent or under 500 characters
    contributes nothing, and when every attempt of the inline budget is
    such, the page is recorded in the failure registry with zero hashes
    and the session hash set is untouched. -/
theorem claim7_short_content_failed (env : Env) (mx p : Nat) (s : SessState)
    (hshort : ∀ k, 1 ≤ k → k ≤ mx → contentShort (env.waveFetch p k) = true) :
    (∀ c : String, c.length < 500 → (scrapePage (some c) p).1.htmlContent = none)
    ∧ (processPage env mx p s).1.failedPages = insertNat s.failedPages p
    ∧ (processPage env mx p s).1.allHashes = s.allHashes
    ∧ (processPage env mx p s).2 = (p, 0) := by
  have hpp := processPage_failed env mx p s
    (Or.inr fun k hk1 hk2 => attemptValid_short _ p (hshort k hk1 hk2))
  refine ⟨fun c hc => ?_, ?_, ?_, ?_⟩
  · unfold scrapePage
    simp [hc]
  · rw [hpp]
  · rw [hpp]
  · rw [hpp]

theorem claim7_short_content_failed_wit :
    (scrapePage (some "tiny") 1).1.htmlContent = none
    ∧ (processPage envTiny 2 1 {}).1.failedPages = [1]
    ∧ (processPage envTiny 2 1 {}).1.allHashes = []
    ∧ (processPage envTiny 2 1 {}).2 = (1, 0) := by
  have h := claim7_short_content_failed envTiny 2 1 {} (fun k hk1 hk2 => rfl)
  exact ⟨h.1 "tiny" (by decide), h.2.1, h.2.2.1, h.2.2.2⟩

/-- C8: the session schedules exactly pages 1..min(detected, requested),
    so an oversized request is clamped without error, and detection that
    finds no pagination marker schedules exactly page 1. -/
theorem claim8_clamped_schedule (env : Env) (maxWindows requested : Nat)
    (hw : 1 ≤ maxWindows) (hr : 1 ≤ requested) :
    scheduledPages env maxWindows requested
        = List.range' 1 (min (detectTotalPages env) requested)
    ∧ (scheduledPages env maxWindows requested).length
        = min (detectTotalPages env) requested
    ∧ (env.pageInfoMatch = none → env.lastButtonMatch = none →
        scheduledPages env maxWindows requested = [1]) := by
  have h1 : scheduledPages env maxWindows requested
      = List.range' 1 (min (detectTotalPages env) requested) :=
    wavePages_flatten maxWindows _ hw
  refine ⟨h1, ?_, ?_⟩
  · rw [h1, List.length_range']
  · intro hpi hlb
    have hd : detectTotalPages env = 1 := by
      simp [detectTotalPages, detectScript, hpi, hlb]
    have hmin : min (detectTotalPages env) requested = 1 := by
      rw [hd]; omega
    rw [h1, hmin]
    rfl

theorem claim8_clamped_schedule_wit :
    scheduledPages envFail 3 5 = List.range' 1 (min (detectTotalPages envFail) 5)
    ∧ (scheduledPages envFail 3 5).length = min (detectTotalPages envFail) 5
    ∧ scheduledPages envFail 3 5 = [1] := by
  have h := claim8_clamped_schedule envFail 3 5 (by decide) (by decide)
  exact ⟨h.1, h.2.1, h.2.2 rfl rfl⟩

/-- C9: extraction always yields a duplicate-free list, and on the
    scenario-A content (two link occurrences of hashAlpha around one of
    hashBeta) it yields exactly the two identifiers, first occurrences in
    order, with the duplicate collapsed. -/
theorem claim9_extraction_dedup :
    (∀ content : String, (parseHTMLForHashes content).Nodup)
    ∧ parseHTMLForHashes scenarioA = [hashAlpha, hashBeta] :=
  ⟨fun content => foldl_insertStr_nodup _ [] List.nodup_nil, by decide⟩

/-- C10: a page of exactly 500 characters passes the insufficient-content
    check inside scrapePage, but the scrapePageSafe validator accepts only
    strictly more than 500 characters, so such a page is retried and
    finally recorded as Failed: the effective success threshold is
    strictly more than 500. -/
theorem claim10_boundary_500 (env : Env) (mx p : Nat) (s : SessState)
    (hfetch : ∀ k, 1 ≤ k → k ≤ mx → ∃ c, env.waveFetch p k = some c ∧ c.length = 500) :
    (∀ c : String, c.length = 500 → detectedFailure c = none →
        (scrapePage (some c) p).1.htmlContent = some c)
    ∧ (∀ c : String, c.length = 500 → attemptValid (some c) p = false)
    ∧ (processPage env mx p s).1.failedPages = insertNat s.failedPages p
    ∧ (processPage env mx p s).2 = (p, 0) := by
  have hval : ∀ k, 1 ≤ k → k ≤ mx → attemptValid (env.waveFetch p k) p = false := by
    intro k hk1 hk2
    obtain ⟨c, hc, hlen⟩ := hfetch k hk1 hk2
    rw [hc]
    exact attemptValid_le500 c p (by omega)
  have hpp := processPage_failed env mx p s (Or.inr hval)
  refine ⟨fun c hlen hdf => ?_, fun c hlen => attemptValid_le500 c p (by omega), ?_, ?_⟩
  · unfold scrapePage
    have hge : ¬ c.length < 500 := by omega
    simp [hge, hdf]
  · rw [hpp]
  · rw [hpp]

theorem claim10_boundary_500_wit :
    (scrapePage (some pad500) 1).1.htmlContent = some pad500
    ∧ attemptValid (some pad500) 1 = false
    ∧ (processPage env500 2 1 {}).1.failedPages = [1]
    ∧ (processPage env500 2 1 {}).2 = (1, 0) := by
  have h := claim10_boundary_500 env500 2 1 {} (fun k hk1 hk2 => ⟨pad500, rfl, by decide⟩)
  exact ⟨h.1 pad500 (by decide) (by decide), h.2.1 pad500 (by decide), h.2.2.1, h.2.2.2⟩

end EthScrapper
